import Mathlib

/-!
Shallow embedding of the SequenceRetriever class of SequenceRetriever.py
(NCBI-Data-Downloader).  External effects are made explicit: shell commands
become oracle functions from accession numbers to captured output text,
wall-clock timestamps become string parameters, log files become lists of
characters, and each call to the error logger becomes an explicit LogEvent
value recording its three arguments.  Definitions follow the Python source;
the sole specification-worded definition (failReasonSpec) is marked as such.
-/

/- ---------- Python string primitives used by the source ---------- -/

/-- The whitespace set removed by Python str.strip (ASCII part). -/
def pyIsSpace (c : Char) : Bool :=
  c = ' ' || c = '\t' || c = '\n' || c = '\r' || c = '\x0b' || c = '\x0c'

/-- Python str.strip: remove leading and trailing whitespace. -/
def pyStrip (s : String) : String :=
  ⟨((s.data.dropWhile pyIsSpace).reverse.dropWhile pyIsSpace).reverse⟩

/-- Python s.replace of the newline character with the empty string. -/
def removeNewlines (s : String) : String :=
  ⟨s.data.filter (fun c => c != '\n')⟩

/-- The expression sra_num.strip().replace of newline by empty string,
applied to every entry in verify_sra_format and cleanup_files. -/
def normalizeSra (s : String) : String := removeNewlines (pyStrip s)

/-- Python str.upper (ASCII part, which covers the accession alphabet). -/
def pyUpper (s : String) : String := ⟨s.data.map Char.toUpper⟩

/-- Lower-cased character list of a string, used to model the IGNORECASE
flag passed to every re.search call in the source. -/
def lowerChars (s : String) : List Char := s.data.map Char.toLower

/-- Whether pat occurs at the start of l. -/
def prefixOfChars : List Char → List Char → Bool
  | [], _ => true
  | _ :: _, [] => false
  | a :: as, b :: bs => a == b && prefixOfChars as bs

/-- Whether pat occurs as a contiguous substring of the second list. -/
def containsSub (pat : List Char) : List Char → Bool
  | [] => pat.isEmpty
  | c :: rest => prefixOfChars pat (c :: rest) || containsSub pat rest

/-- re.search of a literal pattern with re.IGNORECASE: case-insensitive
substring test. -/
def containsCI (s pat : String) : Bool := containsSub (lowerChars pat) (lowerChars s)

/-- Whether suf occurs at the end of l. -/
def endsWithChars (l suf : List Char) : Bool := prefixOfChars suf.reverse l.reverse

/-- Python str.split on the newline character (as used on captured command
output); the empty string yields a single empty field, as in Python. -/
def splitNlChars : List Char → List (List Char)
  | [] => [[]]
  | c :: rest =>
    let r := splitNlChars rest
    if c = '\n' then [] :: r
    else
      match r with
      | [] => [[c]]
      | h :: t => (c :: h) :: t

/-- Python s.split on newline, at the String level. -/
def pySplitNl (s : String) : List String := (splitNlChars s.data).map (fun l => ⟨l⟩)

/- ---------- The accession-number format test (verify_sra_format) ---------- -/

/-- The test re.match with pattern anchored SRR-or-ERR followed by one or
more digits, applied to an upper-cased input.  The inputs the source feeds
it contain no newline character (they went through normalizeSra), so the
end anchor is plain end of string. -/
def matchesSraPattern (s : String) : Bool :=
  match s.data with
  | c1 :: 'R' :: 'R' :: rest =>
    (c1 == 'S' || c1 == 'E') && !rest.isEmpty && rest.all Char.isDigit
  | _ => false

/- ---------- In-memory driver state and log events ---------- -/

/-- The mutable lists held on the SequenceRetriever object. -/
structure SeqState where
  prefetch_access_denied_sra : List String
  prefetch_access_failed_sra : List String
  previously_retrieved_sra : List String
  prefetch_oversize_sra : List String
  past_sra : List String
deriving DecidableEq

/-- The freshly constructed object state: all lists empty. -/
def emptyState : SeqState := ⟨[], [], [], [], []⟩

/-- One invocation of log_error, recording its three arguments. -/
structure LogEvent where
  sra : String
  message : String
  errorId : String
deriving DecidableEq

/- ---------- verify_sra_format ---------- -/

/-- verify_sra_format: returns (correct_data, incorrect_data, log events),
processing entries in order; a conforming entry (after normalizeSra) goes
to the first list, every other entry goes to the second and produces one
log_error call with message Incorrect Formatting and error id 404. -/
def verify_sra_format : List String → List String × List String × List LogEvent
  | [] => ([], [], [])
  | raw :: rest =>
    let sra := normalizeSra raw
    let r := verify_sra_format rest
    if matchesSraPattern (pyUpper sra) then (sra :: r.1, r.2.1, r.2.2)
    else (r.1, sra :: r.2.1, LogEvent.mk sra "Incorrect Formatting" "404" :: r.2.2)

/- ---------- validate_sra_data ---------- -/

/-- The pattern with an alphanumeric character, a space and the letters ok
at the end of the line (IGNORECASE). -/
def okPat (line : String) : Bool :=
  match (lowerChars line).reverse with
  | 'k' :: 'o' :: ' ' :: c :: _ => c.isAlpha || c.isDigit
  | _ => false

/-- The pattern space-reads at the end of the line (IGNORECASE). -/
def readsPat (line : String) : Bool := endsWithChars (lowerChars line) " reads".data

/-- The pattern is-consistent at the end of the line (IGNORECASE). -/
def consistentPat (line : String) : Bool :=
  endsWithChars (lowerChars line) "is consistent".data

/-- A validation output line is treated as good when any of the three
known-good patterns matches it. -/
def lineIsOk (line : String) : Bool := okPat line || readsPat line || consistentPat line

/-- The else-branch of validate_sra_data for one failing line: resolves the
error text by consulting the rejection lists in source order, falling back
to the literal line when it is non-empty; returns the err value passed to
log_error and the optional entry appended to the printed errors list. -/
def classifyFailure (st : SeqState) (sra line : String) : String × Option String :=
  if sra ∈ st.prefetch_access_denied_sra then
    ("Project is private: Access Denied (403)",
     some ("Data " ++ sra ++ " validation failed. Error: Project is private: Access Denied (403)"))
  else if sra ∈ st.prefetch_access_failed_sra then
    ("Incorrect SRA: failed to resolve accession (404)",
     some ("Data " ++ sra ++ " validation failed. Error: Incorrect SRA: failed to resolve accession (404)"))
  else if sra ∈ st.prefetch_oversize_sra then
    ("SRA size exceeds the maximum allowed size (1101)",
     some ("Data " ++ sra ++ " validation failed. Error: SRA size exceeds the maximum allowed size (1101)"))
  else if sra ∈ st.previously_retrieved_sra then
    ("SRA has been retrieved previously (1102)",
     some ("Data " ++ sra ++ " validation failed. Error: SRA has been retrieved previously (1102)"))
  else if 0 < line.length then
    (line, some ("Error Not Caught: Data " ++ sra ++ " validation failed. Error: " ++ line))
  else ("", none)

/-- The inner loop of validate_sra_data over the split output lines of one
accession: returns the validation flag contribution, the log_error calls
and the printed error entries, in iteration order. -/
def validateLines (st : SeqState) (sra : String) : List String → Bool × List LogEvent × List String
  | [] => (true, [], [])
  | line :: rest =>
    let r := validateLines st sra rest
    if lineIsOk line then r
    else
      (false,
       LogEvent.mk sra (classifyFailure st sra line).1 "validation-failure" :: r.2.1,
       match (classifyFailure st sra line).2 with
       | some p => p :: r.2.2
       | none => r.2.2)

/-- validate_sra_data: each pair carries an accession number and the text
captured from the external validation command for it.  Returns the final
validation boolean, the log_error calls and the printed errors list. -/
def validate_sra_data (st : SeqState) : List (String × String) → Bool × List LogEvent × List String
  | [] => (true, [], [])
  | (sra, outp) :: rest =>
    let r1 := validateLines st sra (pySplitNl outp)
    let r2 := validate_sra_data st rest
    (r1.1 && r2.1, r1.2.1 ++ r2.2.1, r1.2.2 ++ r2.2.2)

/- ---------- check_proccess_output and download_data ---------- -/

/-- The first line of the stripped process output (index zero after the
strip and split in check_proccess_output). -/
def firstLineOfOutput (outp : String) : String := (pySplitNl (pyStrip outp)).headD ""

/-- check_proccess_output: scans the captured output and both returns the
numeric code and appends to the matching rejection list.  The parenthesised
403 and 404 of the source patterns are regex groups, so the searched text
is the space-padded number.  The prefetch branch of the source reads the
second output line (an IndexError on shorter output; that call path does
not occur in this repository, which only passes vdb-dump). -/
def check_proccess_output (st : SeqState) (sra process outp : String) : Int × SeqState :=
  let lines := pySplitNl (pyStrip outp)
  let line0 := lines.headD ""
  if process = "vdb-dump" then
    if containsCI line0 " access denied " && containsCI line0 " 403 " then
      (403, { st with prefetch_access_denied_sra := st.prefetch_access_denied_sra ++ [sra] })
    else if containsCI line0 " failed to resolve accession " && containsCI line0 " 404 " then
      (404, { st with prefetch_access_failed_sra := st.prefetch_access_failed_sra ++ [sra] })
    else (-1, st)
  else if process = "prefetch" then
    if containsCI (lines[1]?.getD "") "is larger than maximum allowed: skipped" then (1101, st)
    else (-1, st)
  else if process = "previously_retrieved" then
    if sra ∈ st.past_sra then
      (1102, { st with previously_retrieved_sra := st.previously_retrieved_sra ++ [sra] })
    else (-1, st)
  else (-1, st)

/-- The three external commands spawned by download_data for an accession. -/
inductive ToolCmd where
  | vdbDump (sra : String)
  | prefetchCmd (sra : String)
  | fasterqDump (sra : String)
deriving DecidableEq

/-- One iteration of the download_data loop.  vdbOut is the oracle for the
captured vdb-dump output; listdir is the oracle for the working-directory
listing observed right after the prefetch command for this accession.
Returns the updated state and the external commands actually spawned. -/
def download_one (vdbOut : String → String) (listdir : String → List String)
    (st : SeqState) (sra : String) : SeqState × List ToolCmd :=
  let c := check_proccess_output st sra "vdb-dump" (vdbOut sra)
  if c.1 = -1 then
    if sra ∈ listdir sra then
      (c.2, [ToolCmd.vdbDump sra, ToolCmd.prefetchCmd sra, ToolCmd.fasterqDump sra])
    else
      ({ c.2 with prefetch_oversize_sra := c.2.prefetch_oversize_sra ++ [sra] },
       [ToolCmd.vdbDump sra, ToolCmd.prefetchCmd sra])
  else (c.2, [ToolCmd.vdbDump sra])

/-- download_data: the loop over the accession list. -/
def download_data (vdbOut : String → String) (listdir : String → List String) :
    SeqState → List String → SeqState × List ToolCmd
  | st, [] => (st, [])
  | st, sra :: rest =>
    let r1 := download_one vdbOut listdir st sra
    let r2 := download_data vdbOut listdir r1.1 rest
    (r2.1, r1.2 ++ r2.2)

/- ---------- cleanup_files ---------- -/

/-- The removal commands spawned by cleanup_files for an accession: the rm
of the per-accession .sra file, the rmdir of the per-accession directory,
and the rmdir of the (expected-empty) output directory. -/
inductive CleanupCmd where
  | rmSraFile (sra : String)
  | rmSraDir (sra : String)
  | rmOutputDir (sra : String)
deriving DecidableEq

/-- The skip condition of the cleanup loop, in source order: failed SRA
prefetches did not create a file, so those accessions are skipped. -/
def cleanupSkips (st : SeqState) (s : String) : Bool :=
  decide (s ∈ st.prefetch_access_failed_sra) || decide (s ∈ st.prefetch_access_denied_sra)
    || decide (s ∈ st.prefetch_oversize_sra)

/-- A removal is reported failed when either captured command output is
non-empty; rmOut and rmdirOut are the oracles for those outputs. -/
def removalFailed (rmOut rmdirOut : String → String) (s : String) : Bool :=
  decide (0 < (rmOut s).length) || decide (0 < (rmdirOut s).length)

/-- The main loop of cleanup_files over the input accessions: removes the
per-accession file and directory unless the accession sits in one of the
three rejection lists, and logs one uncategorised (-1) event per failed
removal. -/
def cleanup_main (st : SeqState) (rmOut rmdirOut : String → String) :
    List String → List CleanupCmd × List LogEvent
  | [] => ([], [])
  | raw :: rest =>
    let sra := normalizeSra raw
    let r := cleanup_main st rmOut rmdirOut rest
    if cleanupSkips st sra then r
    else
      (CleanupCmd.rmSraFile sra :: CleanupCmd.rmSraDir sra :: r.1,
       if removalFailed rmOut rmdirOut sra then
         LogEvent.mk sra (sra ++ ".sra and/or the folder containing this file failed to be removed.") "-1" :: r.2
       else r.2)

/-- cleanup_files: the main loop followed by the three set loops, each of
which removes the output directory of the accession and logs one event. -/
def cleanup_files (st : SeqState) (rmOut rmdirOut : String → String)
    (sra_data : List String) : List CleanupCmd × List LogEvent :=
  let r := cleanup_main st rmOut rmdirOut sra_data
  (r.1 ++ st.prefetch_access_denied_sra.map CleanupCmd.rmOutputDir
      ++ st.prefetch_access_failed_sra.map CleanupCmd.rmOutputDir
      ++ st.prefetch_oversize_sra.map CleanupCmd.rmOutputDir,
   r.2 ++ st.prefetch_access_denied_sra.map
          (fun s => LogEvent.mk s "Incorrect SRA: access denied (403)" "403")
      ++ st.prefetch_access_failed_sra.map
          (fun s => LogEvent.mk s "Incorrect SRA: failed to resolve accession (404)" "404")
      ++ st.prefetch_oversize_sra.map
          (fun s => LogEvent.mk s "SRA exceeds the maximum allowed size (1101)" "1101"))

/- ---------- log_error at the file level ---------- -/

/-- The fixed tab-delimited header line written by log_error. -/
def headerLabel : List Char :=
  "Error_Time\tSRA_Accession_Number\tProject_ID\tUser_ID\tError_Reason\n".data

/-- Python file readline on the whole file content: the characters up to
and including the first newline, or everything when there is none. -/
def firstLineChars : List Char → List Char
  | [] => []
  | c :: rest => if c = '\n' then [c] else c :: firstLineChars rest

/-- The header decision of log_error: compare the current first line with
the header text and append the header (file opened in append mode, so at
the end) when they differ. -/
def headerize (s : List Char) : List Char :=
  if firstLineChars s = headerLabel then s else s ++ headerLabel

/-- The data of one record write: timestamp, accession, metadata fields
and the free-text reason. -/
structure RecordData where
  time : String
  sra : String
  fields : List String
  msg : String
deriving DecidableEq

/-- The first write of a record: timestamp, tab, accession, tab. -/
def recordPrefix (time sra : String) : List Char := (time ++ "\t" ++ sra ++ "\t").data

/-- The loop writing every metadata field followed by a tab. -/
def fieldsChars : List String → List Char
  | [] => []
  | d :: rest => (d ++ "\t").data ++ fieldsChars rest

/-- The full record line: prefix, metadata fields, reason, newline. -/
def recordChars (r : RecordData) : List Char :=
  recordPrefix r.time r.sra ++ fieldsChars r.fields ++ (r.msg ++ "\n").data

/-- One complete successful append of log_error to one file: header
decision, then the record line. -/
def appendRecordFile (r : RecordData) (s : List Char) : List Char :=
  headerize s ++ recordChars r

/-- Lookup in the in-memory data_hash_table (a Python dict, modelled as an
association list with the first binding winning). -/
def lookupMeta (table : List (String × List String)) (sra : String) : Option (List String) :=
  match table with
  | [] => none
  | (k, v) :: rest => if k = sra then some v else lookupMeta rest sra

/-- The fixed error-id to category-file mapping of log_error; the empty
string stands for no category file. -/
def categoryLogFile (errorId : String) : String :=
  if errorId = "404" then "invalid-sra-log.tsv"
  else if errorId = "403" then "private-sra-log.tsv"
  else if errorId = "1101" then "oversize-sra-log.tsv"
  else if errorId = "validation-failure" then "validation-error-log.tsv"
  else if errorId = "1102" then "previously-retrieved-error.tsv"
  else ""

/-- log_error over the two file contents (the aggregate log and the
category log selected by errId).  When the accession is absent from the
table, the Python dict access raises KeyError after the header decision
and the prefix write on the aggregate file, so the error value carries the
aggregate content with the partial record and the untouched category
content. -/
def log_error (table : List (String × List String)) (time sra msg errId : String)
    (agg cat : List Char) : Except (List Char × List Char) (List Char × List Char) :=
  match lookupMeta table sra with
  | none => Except.error (headerize agg ++ recordPrefix time sra, cat)
  | some fields =>
    let agg2 := appendRecordFile (RecordData.mk time sra fields msg) agg
    if 0 < (categoryLogFile errId).length then
      Except.ok (agg2, appendRecordFile (RecordData.mk time sra fields msg) cat)
    else Except.ok (agg2, cat)

/-- Iterated successful appends of records to one file, oldest first. -/
def appendRecordsFrom (s : List Char) : List RecordData → List Char
  | [] => s
  | r :: rest => appendRecordsFrom (appendRecordFile r s) rest

/-- How many of the iterated appends wrote the header line. -/
def headerWritesFrom (s : List Char) : List RecordData → Nat
  | [] => 0
  | r :: rest =>
    (if firstLineChars s = headerLabel then 0 else 1) + headerWritesFrom (appendRecordFile r s) rest

/- ---------- Specification-worded companion for the failure reason ---------- -/

/-- Modelled from the spec: the failure reason is resolved by consulting
the rejection sets in the priority order access-denied, not-found,
size-exceeded, already-processed, before falling back to the literal
failure line text.  Used only to compare against the source-derived
classifyFailure. -/
def failReasonSpec (st : SeqState) (sra line : String) : String :=
  if sra ∈ st.prefetch_access_denied_sra then "Project is private: Access Denied (403)"
  else if sra ∈ st.prefetch_access_failed_sra then "Incorrect SRA: failed to resolve accession (404)"
  else if sra ∈ st.prefetch_oversize_sra then "SRA size exceeds the maximum allowed size (1101)"
  else if sra ∈ st.previously_retrieved_sra then "SRA has been retrieved previously (1102)"
  else line

/- ---------- Lemmas about the log-file model ---------- -/

theorem mem_of_mem_firstLineChars (s : List Char) (c : Char)
    (h : c ∈ firstLineChars s) : c ∈ s := by
  induction s with
  | nil => simp [firstLineChars] at h
  | cons a rest ih =>
    by_cases ha : a = '\n'
    · subst ha
      simp [firstLineChars] at h
      simp [h]
    · simp [firstLineChars, ha] at h
      rcases h with h | h
      · simp [h]
      · exact List.mem_cons_of_mem _ (ih h)

theorem firstLineChars_append_of_newline (l t : List Char) (h : '\n' ∈ l) :
    firstLineChars (l ++ t) = firstLineChars l := by
  induction l with
  | nil => simp at h
  | cons c rest ih =>
    by_cases hc : c = '\n'
    · subst hc
      simp [firstLineChars]
    · have h' : '\n' ∈ rest := by
        rcases List.mem_cons.mp h with h | h
        · exact absurd h.symm hc
        · exact h
      simp [firstLineChars, hc, ih h']

theorem newline_mem_headerLabel : '\n' ∈ headerLabel := by decide

theorem firstLineChars_headerLabel : firstLineChars headerLabel = headerLabel := by decide

theorem newline_mem_of_firstLine_eq (s : List Char)
    (h : firstLineChars s = headerLabel) : '\n' ∈ s :=
  mem_of_mem_firstLineChars s '\n' (h ▸ newline_mem_headerLabel)

theorem firstLine_appendRecordFile (r : RecordData) (s : List Char)
    (h : firstLineChars s = headerLabel) :
    firstLineChars (appendRecordFile r s) = headerLabel := by
  have hnl := newline_mem_of_firstLine_eq s h
  simp [appendRecordFile, headerize, h, firstLineChars_append_of_newline _ _ hnl]

theorem firstLine_appendRecordFile_fresh (r : RecordData) :
    firstLineChars (appendRecordFile r []) = headerLabel := by
  have h0 : firstLineChars ([] : List Char) ≠ headerLabel := by decide
  simp only [appendRecordFile, headerize, if_neg h0, List.nil_append]
  rw [firstLineChars_append_of_newline _ _ newline_mem_headerLabel, firstLineChars_headerLabel]

theorem firstLine_appendRecordsFrom (recs : List RecordData) (s : List Char)
    (h : firstLineChars s = headerLabel) :
    firstLineChars (appendRecordsFrom s recs) = headerLabel := by
  induction recs generalizing s with
  | nil => simpa [appendRecordsFrom] using h
  | cons r rest ih =>
    simp only [appendRecordsFrom]
    exact ih _ (firstLine_appendRecordFile r s h)

theorem headerWrites_zero (recs : List RecordData) (s : List Char)
    (h : firstLineChars s = headerLabel) : headerWritesFrom s recs = 0 := by
  induction recs generalizing s with
  | nil => rfl
  | cons r rest ih =>
    simp only [headerWritesFrom, if_pos h, Nat.zero_add]
    exact ih _ (firstLine_appendRecordFile r s h)

/- ---------- Claim theorems: C2 and C10 ---------- -/

/-- C2 (amended): the header decision of log_error compares the current
first line of the file with the fixed header text, not file existence; a
freshly created log has the header as its first line and the header is
written exactly once no matter how many records follow; a log whose first
line already equals the header is never re-headered; and (the amended
part) a log whose first line is data does receive the header text, but
appended after the existing content on every call, never as its first
line. -/
theorem C2_header_behavior :
    (∀ (r : RecordData) (s : List Char),
        appendRecordFile r s =
          (if firstLineChars s = headerLabel then s else s ++ headerLabel) ++ recordChars r)
    ∧ (∀ (r : RecordData) (recs : List RecordData),
        firstLineChars (appendRecordsFrom [] (r :: recs)) = headerLabel
          ∧ headerWritesFrom [] (r :: recs) = 1)
    ∧ (∀ (r : RecordData) (s : List Char), firstLineChars s = headerLabel →
        appendRecordFile r s = s ++ recordChars r)
    ∧ (∀ (r : RecordData) (s : List Char), firstLineChars s ≠ headerLabel →
        appendRecordFile r s = s ++ (headerLabel ++ recordChars r)) := by
  refine ⟨fun r s => rfl, fun r recs => ⟨?_, ?_⟩, fun r s h => ?_, fun r s h => ?_⟩
  · simp only [appendRecordsFrom]
    exact firstLine_appendRecordsFrom recs _ (firstLine_appendRecordFile_fresh r)
  · have h0 : firstLineChars ([] : List Char) ≠ headerLabel := by decide
    simp only [headerWritesFrom, if_neg h0]
    rw [headerWrites_zero recs _ (firstLine_appendRecordFile_fresh r)]
  · simp [appendRecordFile, headerize, h]
  · simp [appendRecordFile, headerize, h]

/-- C2 witness: the general theorem applied at concrete files, one whose
first line already equals the header (no re-header) and one whose first
line is data (header text appended at the end). -/
theorem C2_header_behavior_witness :
    appendRecordFile (RecordData.mk "t" "SRR1" ["P", "U"] "m") headerLabel
        = headerLabel ++ recordChars (RecordData.mk "t" "SRR1" ["P", "U"] "m")
    ∧ appendRecordFile (RecordData.mk "t" "SRR1" ["P", "U"] "m") ("data\n".data)
        = "data\n".data
            ++ (headerLabel ++ recordChars (RecordData.mk "t" "SRR1" ["P", "U"] "m")) :=
  ⟨C2_header_behavior.2.2.1 _ headerLabel (by decide),
   C2_header_behavior.2.2.2 _ _ (by decide)⟩

/-- C2 counterexample: a log whose first line is data does receive the
header text (appended after the existing content), contradicting the
claim sentence that such a log never receives a header at all. -/
theorem C2_counterexample :
    appendRecordFile (RecordData.mk "2021-01-01 00:00:00" "SRR9" ["P1", "U1"] "oops")
        ("data\n".data)
      = "data\n".data ++ headerLabel
          ++ recordChars (RecordData.mk "2021-01-01 00:00:00" "SRR9" ["P1", "U1"] "oops") := by
  decide

/-- C10: log_error is not atomic and requires the accession to be a key of
the in-memory table: when the lookup is absent, the KeyError fires after
the header decision and after the timestamp-and-accession prefix write on
the aggregate log, which is left with a partial record (no metadata
fields, no reason, no newline), and the category log is never touched. -/
theorem C10_log_error_partial (table : List (String × List String))
    (time sra msg errId : String) (agg cat : List Char)
    (h : lookupMeta table sra = none) :
    log_error table time sra msg errId agg cat
      = Except.error (headerize agg ++ recordPrefix time sra, cat) := by
  simp [log_error, h]

/-- C10 witness: the empty table at a concrete accession. -/
theorem C10_log_error_partial_witness :
    log_error [] "2021-01-01 00:00:00" "SRR1" "m" "404" [] []
      = Except.error (headerize [] ++ recordPrefix "2021-01-01 00:00:00" "SRR1", []) :=
  C10_log_error_partial [] _ _ _ _ _ _ rfl

/- ---------- Lemmas about verify_sra_format ---------- -/

theorem verify_sra_format_spec (input : List String) :
    verify_sra_format input
      = ((input.map normalizeSra).filter (fun s => matchesSraPattern (pyUpper s)),
         (input.map normalizeSra).filter (fun s => !matchesSraPattern (pyUpper s)),
         ((input.map normalizeSra).filter (fun s => !matchesSraPattern (pyUpper s))).map
           (fun s => LogEvent.mk s "Incorrect Formatting" "404")) := by
  induction input with
  | nil => rfl
  | cons raw rest ih =>
    by_cases h : matchesSraPattern (pyUpper (normalizeSra raw))
    · simp [verify_sra_format, h, ih, List.filter_cons]
    · simp [verify_sra_format, h, ih, List.filter_cons]

/- ---------- Lemmas about validate_sra_data ---------- -/

theorem validateLines_flag (st : SeqState) (sra : String) (lines : List String) :
    (validateLines st sra lines).1 = lines.all (fun l => lineIsOk l) := by
  induction lines with
  | nil => rfl
  | cons line rest ih =>
    by_cases h : lineIsOk line
    · simp [validateLines, h, ih]
    · simp [validateLines, h]

theorem validateLines_events (st : SeqState) (sra : String) (lines : List String) :
    (validateLines st sra lines).2.1
      = (lines.filter (fun l => !lineIsOk l)).map
          (fun l => LogEvent.mk sra (classifyFailure st sra l).1 "validation-failure") := by
  induction lines with
  | nil => rfl
  | cons line rest ih =>
    by_cases h : lineIsOk line
    · simp [validateLines, h, ih, List.filter_cons]
    · simp [validateLines, h, ih, List.filter_cons]

theorem validate_sra_data_flag (st : SeqState) (inputs : List (String × String)) :
    (validate_sra_data st inputs).1
      = inputs.all (fun p => (pySplitNl p.2).all (fun l => lineIsOk l)) := by
  induction inputs with
  | nil => rfl
  | cons p rest ih =>
    obtain ⟨sra, outp⟩ := p
    simp [validate_sra_data, validateLines_flag, ih]

theorem validate_sra_data_events (st : SeqState) (inputs : List (String × String)) :
    (validate_sra_data st inputs).2.1
      = inputs.flatMap (fun p => ((pySplitNl p.2).filter (fun l => !lineIsOk l)).map
          (fun l => LogEvent.mk p.1 (classifyFailure st p.1 l).1 "validation-failure")) := by
  induction inputs with
  | nil => rfl
  | cons p rest ih =>
    obtain ⟨sra, outp⟩ := p
    simp [validate_sra_data, validateLines_events, ih]

theorem classifyFailure_fst (st : SeqState) (sra line : String) :
    (classifyFailure st sra line).1 = failReasonSpec st sra line := by
  unfold classifyFailure failReasonSpec
  by_cases h1 : sra ∈ st.prefetch_access_denied_sra
  · simp [h1]
  · by_cases h2 : sra ∈ st.prefetch_access_failed_sra
    · simp [h1, h2]
    · by_cases h3 : sra ∈ st.prefetch_oversize_sra
      · simp [h1, h2, h3]
      · by_cases h4 : sra ∈ st.previously_retrieved_sra
        · simp [h1, h2, h3, h4]
        · by_cases h5 : 0 < line.length
          · simp [h1, h2, h3, h4, h5]
          · have hempty : line = "" := by
              cases line with
              | mk data =>
                cases data with
                | nil => rfl
                | cons c cs => simp [String.length] at h5
            subst hempty
            simp [h1, h2, h3, h4]

/- ---------- Claim theorems: C3, C4, C5, C7, C9 ---------- -/

/-- C3 counterexample: the claim says conforming entries are returned
unchanged, but an entry carrying leading whitespace whose stripped form
conforms is returned in stripped form, not unchanged. -/
theorem C3_counterexample :
    (verify_sra_format [" SRR1"]).1 = ["SRR1"]
    ∧ (verify_sra_format [" SRR1"]).1 ≠ [" SRR1"] := by
  decide

/-- C3 (amended): verify_sra_format accepts exactly those entries whose
stripped form (leading and trailing whitespace removed, then every newline
character deleted) matches the case-insensitive SRR-or-ERR-digits pattern,
returning the stripped forms in their original relative order; every other
entry is excluded, collected in stripped form, and logged exactly once as
malformed with message Incorrect Formatting and error id 404. -/
theorem C3_verify_format (input : List String) :
    verify_sra_format input
      = ((input.map normalizeSra).filter (fun s => matchesSraPattern (pyUpper s)),
         (input.map normalizeSra).filter (fun s => !matchesSraPattern (pyUpper s)),
         ((input.map normalizeSra).filter (fun s => !matchesSraPattern (pyUpper s))).map
           (fun s => LogEvent.mk s "Incorrect Formatting" "404")) :=
  verify_sra_format_spec input

/-- C4: validate_sra_data scans each split output line against the three
known-good patterns and treats every line matching none of them as a
failure; the returned boolean is true exactly when every line of every
accession is good.  The line database.sra-is-consistent produces no log
event, while database.sra-corrupted is a failure logged with the literal
line as reason when the accession is in no rejection list. -/
theorem C4_validate_scan :
    (∀ (st : SeqState) (inputs : List (String × String)),
        (validate_sra_data st inputs).1
          = inputs.all (fun p => (pySplitNl p.2).all (fun l => lineIsOk l)))
    ∧ validate_sra_data emptyState [("SRR1", "database.sra is consistent")] = (true, [], [])
    ∧ validate_sra_data emptyState [("SRR1", "database.sra corrupted")]
        = (false,
           [LogEvent.mk "SRR1" "database.sra corrupted" "validation-failure"],
           ["Error Not Caught: Data SRR1 validation failed. Error: database.sra corrupted"]) :=
  ⟨validate_sra_data_flag, by decide, by decide⟩

/-- C5: the reason recorded by validate_sra_data for every failing line is
exactly the specification rule failReasonSpec: the rejection sets are
consulted in the priority order access-denied, not-found, size-exceeded,
already-processed, and only when the accession is in none of them is the
literal line text used (the source guard on non-empty lines changes
nothing, because the fallback for an empty line is the empty string, which
is that literal line). -/
theorem C5_reason_priority (st : SeqState) (inputs : List (String × String)) :
    (validate_sra_data st inputs).2.1
      = inputs.flatMap (fun p => ((pySplitNl p.2).filter (fun l => !lineIsOk l)).map
          (fun l => LogEvent.mk p.1 (failReasonSpec st p.1 l) "validation-failure")) := by
  rw [validate_sra_data_events]
  simp only [classifyFailure_fst]

/-- C7: the lowercase conforming identifier srr123 is accepted (in its
stripped form, which here is the input itself), while the non-conforming
identifier ABC is rejected with reason Incorrect Formatting and error id
404, whose category file is the invalid-format log. -/
theorem C7_examples :
    verify_sra_format ["srr123", "ABC"]
      = (["srr123"], ["ABC"], [LogEvent.mk "ABC" "Incorrect Formatting" "404"])
    ∧ categoryLogFile "404" = "invalid-sra-log.tsv" :=
  ⟨by decide, rfl⟩

/-- C9: an empty validation output line matches none of the three
known-good patterns, so for an accession in no rejection list the overall
flag becomes false and log_error is invoked with the empty string as
reason, while the printed errors list receives no entry (the non-empty
guard only suppresses the printed entry, not the log write). -/
theorem C9_empty_line (st : SeqState) (sra : String)
    (h1 : sra ∉ st.prefetch_access_denied_sra)
    (h2 : sra ∉ st.prefetch_access_failed_sra)
    (h3 : sra ∉ st.prefetch_oversize_sra)
    (h4 : sra ∉ st.previously_retrieved_sra) :
    validate_sra_data st [(sra, "")]
      = (false, [LogEvent.mk sra "" "validation-failure"], []) := by
  have hline : lineIsOk "" = false := rfl
  have hsplit : pySplitNl "" = [""] := rfl
  have hlen : ¬ (0 < ("" : String).length) := by decide
  simp [validate_sra_data, hsplit, validateLines, hline, classifyFailure,
    h1, h2, h3, h4, hlen]

/-- C9 witness: the fresh driver state at a concrete accession. -/
theorem C9_empty_line_witness :
    validate_sra_data emptyState [("SRR1", "")]
      = (false, [LogEvent.mk "SRR1" "" "validation-failure"], []) :=
  C9_empty_line emptyState "SRR1" (by decide) (by decide) (by decide) (by decide)

/- ---------- Lemmas about cleanup_files ---------- -/

theorem cleanup_main_spec (st : SeqState) (rmOut rmdirOut : String → String)
    (data : List String) :
    cleanup_main st rmOut rmdirOut data
      = (((data.map normalizeSra).filter (fun s => !cleanupSkips st s)).flatMap
           (fun s => [CleanupCmd.rmSraFile s, CleanupCmd.rmSraDir s]),
         ((data.map normalizeSra).filter
             (fun s => !cleanupSkips st s && removalFailed rmOut rmdirOut s)).map
           (fun s => LogEvent.mk s
             (s ++ ".sra and/or the folder containing this file failed to be removed.") "-1")) := by
  induction data with
  | nil => rfl
  | cons raw rest ih =>
    by_cases h : cleanupSkips st (normalizeSra raw)
    · simp [cleanup_main, h, ih, List.filter_cons]
    · by_cases hf : removalFailed rmOut rmdirOut (normalizeSra raw)
      · simp [cleanup_main, h, hf, ih, List.filter_cons]
      · simp [cleanup_main, h, hf, ih, List.filter_cons]

theorem cleanup_files_events (st : SeqState) (rmOut rmdirOut : String → String)
    (data : List String) :
    (cleanup_files st rmOut rmdirOut data).2
      = ((data.map normalizeSra).filter
             (fun s => !cleanupSkips st s && removalFailed rmOut rmdirOut s)).map
           (fun s => LogEvent.mk s
             (s ++ ".sra and/or the folder containing this file failed to be removed.") "-1")
        ++ st.prefetch_access_denied_sra.map
             (fun s => LogEvent.mk s "Incorrect SRA: access denied (403)" "403")
        ++ st.prefetch_access_failed_sra.map
             (fun s => LogEvent.mk s "Incorrect SRA: failed to resolve accession (404)" "404")
        ++ st.prefetch_oversize_sra.map
             (fun s => LogEvent.mk s "SRA exceeds the maximum allowed size (1101)" "1101") := by
  simp [cleanup_files, cleanup_main_spec]

theorem rmOutputDir_mem_cleanup_of_denied (st : SeqState) (rmOut rmdirOut : String → String)
    (data : List String) (sra : String) (h : sra ∈ st.prefetch_access_denied_sra) :
    CleanupCmd.rmOutputDir sra ∈ (cleanup_files st rmOut rmdirOut data).1 := by
  have hm : CleanupCmd.rmOutputDir sra
      ∈ st.prefetch_access_denied_sra.map CleanupCmd.rmOutputDir :=
    List.mem_map_of_mem _ h
  simp only [cleanup_files]
  exact List.mem_append_left _ (List.mem_append_left _ (List.mem_append_right _ hm))

theorem rmOutputDir_mem_cleanup_of_failed (st : SeqState) (rmOut rmdirOut : String → String)
    (data : List String) (sra : String) (h : sra ∈ st.prefetch_access_failed_sra) :
    CleanupCmd.rmOutputDir sra ∈ (cleanup_files st rmOut rmdirOut data).1 := by
  have hm : CleanupCmd.rmOutputDir sra
      ∈ st.prefetch_access_failed_sra.map CleanupCmd.rmOutputDir :=
    List.mem_map_of_mem _ h
  simp only [cleanup_files]
  exact List.mem_append_left _ (List.mem_append_right _ hm)

theorem cleanup_no_sra_removal_of_skipped (st : SeqState) (rmOut rmdirOut : String → String)
    (data : List String) (sra : String) (h : cleanupSkips st sra = true) :
    CleanupCmd.rmSraFile sra ∉ (cleanup_files st rmOut rmdirOut data).1
    ∧ CleanupCmd.rmSraDir sra ∉ (cleanup_files st rmOut rmdirOut data).1 := by
  constructor <;>
  · intro hmem
    simp only [cleanup_files, cleanup_main_spec, List.mem_append, List.mem_flatMap,
      List.mem_filter, List.mem_map] at hmem
    rcases hmem with ((⟨s, ⟨_, hs⟩, hin⟩ | ⟨s, _, hin⟩) | ⟨s, _, hin⟩) | ⟨s, _, hin⟩
    all_goals (try simp at hin)
    all_goals simp_all

/- ---------- Claim theorem: C1 ---------- -/

/-- C1 counterexample: one accession whose captured validation output has
two failing lines produces two log_error calls (hence two aggregate
records and two category records), not exactly one per identifier. -/
theorem C1_counterexample :
    (validate_sra_data emptyState [("SRR1", "bad1\nbad2")]).2.1
      = [LogEvent.mk "SRR1" "bad1" "validation-failure",
         LogEvent.mk "SRR1" "bad2" "validation-failure"] := by
  decide

/-- C1 (amended): the exactly-once guarantee holds per detected failure
event, not per identifier.  In verify_sra_format every malformed entry
produces exactly one log event and conforming entries none; in
validate_sra_data every failing output line produces exactly one log event
and accessions with only good lines none; in cleanup_files every failed
removal and every rejection-list member produces exactly one log event;
and every successful log_error call appends exactly one record to the
aggregate log and exactly one to the category log when a category file is
defined for the error id. -/
theorem C1_one_event_per_failure :
    (∀ input : List String,
        (verify_sra_format input).2.2
          = ((input.map normalizeSra).filter (fun s => !matchesSraPattern (pyUpper s))).map
              (fun s => LogEvent.mk s "Incorrect Formatting" "404"))
    ∧ (∀ (st : SeqState) (inputs : List (String × String)),
        (validate_sra_data st inputs).2.1
          = inputs.flatMap (fun p => ((pySplitNl p.2).filter (fun l => !lineIsOk l)).map
              (fun l => LogEvent.mk p.1 (classifyFailure st p.1 l).1 "validation-failure")))
    ∧ (∀ (st : SeqState) (rmOut rmdirOut : String → String) (data : List String),
        (cleanup_files st rmOut rmdirOut data).2
          = ((data.map normalizeSra).filter
                 (fun s => !cleanupSkips st s && removalFailed rmOut rmdirOut s)).map
               (fun s => LogEvent.mk s
                 (s ++ ".sra and/or the folder containing this file failed to be removed.") "-1")
            ++ st.prefetch_access_denied_sra.map
                 (fun s => LogEvent.mk s "Incorrect SRA: access denied (403)" "403")
            ++ st.prefetch_access_failed_sra.map
                 (fun s => LogEvent.mk s "Incorrect SRA: failed to resolve accession (404)" "404")
            ++ st.prefetch_oversize_sra.map
                 (fun s => LogEvent.mk s "SRA exceeds the maximum allowed size (1101)" "1101"))
    ∧ (∀ (table : List (String × List String)) (time sra msg errId : String)
          (agg cat : List Char) (fields : List String),
        lookupMeta table sra = some fields →
          log_error table time sra msg errId agg cat
            = Except.ok (appendRecordFile (RecordData.mk time sra fields msg) agg,
                if 0 < (categoryLogFile errId).length then
                  appendRecordFile (RecordData.mk time sra fields msg) cat
                else cat)) := by
  refine ⟨?_, validate_sra_data_events, cleanup_files_events, ?_⟩
  · intro input
    rw [verify_sra_format_spec]
  · intro table time sra msg errId agg cat fields h
    simp only [log_error, h]
    by_cases hc : 0 < (categoryLogFile errId).length
    · simp [hc]
    · simp [hc]

/-- C1 witness: a successful log_error call with a defined category file
appends one record to each log. -/
theorem C1_one_event_per_failure_witness :
    log_error [("SRR1", ["P1", "U1"])] "t" "SRR1" "m" "404" [] []
      = Except.ok (appendRecordFile (RecordData.mk "t" "SRR1" ["P1", "U1"] "m") [],
          if 0 < (categoryLogFile "404").length then
            appendRecordFile (RecordData.mk "t" "SRR1" ["P1", "U1"] "m") []
          else []) :=
  C1_one_event_per_failure.2.2.2 [("SRR1", ["P1", "U1"])] "t" "SRR1" "m" "404" [] []
    ["P1", "U1"] (by decide)

/- ---------- Lemmas about check_proccess_output and download_one ---------- -/

theorem check_vdb_denied (st : SeqState) (sra outp : String)
    (h1 : containsCI (firstLineOfOutput outp) " access denied " = true)
    (h2 : containsCI (firstLineOfOutput outp) " 403 " = true) :
    check_proccess_output st sra "vdb-dump" outp
      = (403, { st with prefetch_access_denied_sra := st.prefetch_access_denied_sra ++ [sra] }) := by
  unfold firstLineOfOutput at h1 h2
  rw [List.headD_eq_head?] at h1 h2
  simp [check_proccess_output, h1, h2]

theorem check_vdb_failed (st : SeqState) (sra outp : String)
    (h0 : (containsCI (firstLineOfOutput outp) " access denied "
            && containsCI (firstLineOfOutput outp) " 403 ") = false)
    (h1 : containsCI (firstLineOfOutput outp) " failed to resolve accession " = true)
    (h2 : containsCI (firstLineOfOutput outp) " 404 " = true) :
    check_proccess_output st sra "vdb-dump" outp
      = (404, { st with prefetch_access_failed_sra := st.prefetch_access_failed_sra ++ [sra] }) := by
  unfold firstLineOfOutput at h0 h1 h2
  rw [List.headD_eq_head?] at h0 h1 h2
  simp [check_proccess_output, h0, h1, h2]

theorem download_one_denied (vdbOut : String → String) (listdir : String → List String)
    (st : SeqState) (sra : String)
    (h1 : containsCI (firstLineOfOutput (vdbOut sra)) " access denied " = true)
    (h2 : containsCI (firstLineOfOutput (vdbOut sra)) " 403 " = true) :
    download_one vdbOut listdir st sra
      = ({ st with prefetch_access_denied_sra := st.prefetch_access_denied_sra ++ [sra] },
         [ToolCmd.vdbDump sra]) := by
  simp [download_one, check_vdb_denied st sra (vdbOut sra) h1 h2]

theorem download_one_failed (vdbOut : String → String) (listdir : String → List String)
    (st : SeqState) (sra : String)
    (h0 : (containsCI (firstLineOfOutput (vdbOut sra)) " access denied "
            && containsCI (firstLineOfOutput (vdbOut sra)) " 403 ") = false)
    (h1 : containsCI (firstLineOfOutput (vdbOut sra)) " failed to resolve accession " = true)
    (h2 : containsCI (firstLineOfOutput (vdbOut sra)) " 404 " = true) :
    download_one vdbOut listdir st sra
      = ({ st with prefetch_access_failed_sra := st.prefetch_access_failed_sra ++ [sra] },
         [ToolCmd.vdbDump sra]) := by
  simp [download_one, check_vdb_failed st sra (vdbOut sra) h0 h1 h2]

/- ---------- Claim theorems: C6 and C8 ---------- -/

/-- C6: when the first line of the pre-check output carries the
access-denied signature with the space-padded 403 (respectively, when that
branch fails and the line carries the failed-to-resolve signature with the
space-padded 404), the accession is appended to the corresponding
rejection list, the prefetch and conversion commands are not spawned, and
under the resulting state cleanup removes only the output directory of
that accession, never its .sra file or per-accession directory. -/
theorem C6_precheck_short_circuit (vdbOut : String → String) (listdir : String → List String)
    (st : SeqState) (sra : String) (rmOut rmdirOut : String → String) (data : List String) :
    (containsCI (firstLineOfOutput (vdbOut sra)) " access denied " = true →
     containsCI (firstLineOfOutput (vdbOut sra)) " 403 " = true →
      sra ∈ (download_one vdbOut listdir st sra).1.prefetch_access_denied_sra
      ∧ (download_one vdbOut listdir st sra).2 = [ToolCmd.vdbDump sra]
      ∧ CleanupCmd.rmOutputDir sra
          ∈ (cleanup_files (download_one vdbOut listdir st sra).1 rmOut rmdirOut data).1
      ∧ CleanupCmd.rmSraFile sra
          ∉ (cleanup_files (download_one vdbOut listdir st sra).1 rmOut rmdirOut data).1
      ∧ CleanupCmd.rmSraDir sra
          ∉ (cleanup_files (download_one vdbOut listdir st sra).1 rmOut rmdirOut data).1)
    ∧ ((containsCI (firstLineOfOutput (vdbOut sra)) " access denied "
          && containsCI (firstLineOfOutput (vdbOut sra)) " 403 ") = false →
       containsCI (firstLineOfOutput (vdbOut sra)) " failed to resolve accession " = true →
       containsCI (firstLineOfOutput (vdbOut sra)) " 404 " = true →
      sra ∈ (download_one vdbOut listdir st sra).1.prefetch_access_failed_sra
      ∧ (download_one vdbOut listdir st sra).2 = [ToolCmd.vdbDump sra]
      ∧ CleanupCmd.rmOutputDir sra
          ∈ (cleanup_files (download_one vdbOut listdir st sra).1 rmOut rmdirOut data).1
      ∧ CleanupCmd.rmSraFile sra
          ∉ (cleanup_files (download_one vdbOut listdir st sra).1 rmOut rmdirOut data).1
      ∧ CleanupCmd.rmSraDir sra
          ∉ (cleanup_files (download_one vdbOut listdir st sra).1 rmOut rmdirOut data).1) := by
  constructor
  · intro h1 h2
    rw [download_one_denied vdbOut listdir st sra h1 h2]
    have hmem : sra ∈ st.prefetch_access_denied_sra ++ [sra] :=
      List.mem_append_right _ (List.mem_singleton.mpr rfl)
    have hskip : cleanupSkips
        { st with prefetch_access_denied_sra := st.prefetch_access_denied_sra ++ [sra] } sra
        = true := by
      simp [cleanupSkips]
    have hno := cleanup_no_sra_removal_of_skipped
      { st with prefetch_access_denied_sra := st.prefetch_access_denied_sra ++ [sra] }
      rmOut rmdirOut data sra hskip
    exact ⟨hmem, rfl,
      rmOutputDir_mem_cleanup_of_denied _ rmOut rmdirOut data sra hmem, hno.1, hno.2⟩
  · intro h0 h1 h2
    rw [download_one_failed vdbOut listdir st sra h0 h1 h2]
    have hmem : sra ∈ st.prefetch_access_failed_sra ++ [sra] :=
      List.mem_append_right _ (List.mem_singleton.mpr rfl)
    have hskip : cleanupSkips
        { st with prefetch_access_failed_sra := st.prefetch_access_failed_sra ++ [sra] } sra
        = true := by
      simp [cleanupSkips]
    have hno := cleanup_no_sra_removal_of_skipped
      { st with prefetch_access_failed_sra := st.prefetch_access_failed_sra ++ [sra] }
      rmOut rmdirOut data sra hskip
    exact ⟨hmem, rfl,
      rmOutputDir_mem_cleanup_of_failed _ rmOut rmdirOut data sra hmem, hno.1, hno.2⟩

/-- C6 witness: both signature cases at concrete pre-check outputs, with a
fresh state and a cleanup input list containing the accession itself. -/
theorem C6_precheck_short_circuit_witness :
    ("SRR1" ∈ (download_one (fun _ => "x Access denied y ( 403 ) z") (fun _ => [])
        emptyState "SRR1").1.prefetch_access_denied_sra
      ∧ (download_one (fun _ => "x Access denied y ( 403 ) z") (fun _ => [])
          emptyState "SRR1").2 = [ToolCmd.vdbDump "SRR1"]
      ∧ CleanupCmd.rmOutputDir "SRR1"
          ∈ (cleanup_files (download_one (fun _ => "x Access denied y ( 403 ) z") (fun _ => [])
              emptyState "SRR1").1 (fun _ => "") (fun _ => "") ["SRR1"]).1
      ∧ CleanupCmd.rmSraFile "SRR1"
          ∉ (cleanup_files (download_one (fun _ => "x Access denied y ( 403 ) z") (fun _ => [])
              emptyState "SRR1").1 (fun _ => "") (fun _ => "") ["SRR1"]).1
      ∧ CleanupCmd.rmSraDir "SRR1"
          ∉ (cleanup_files (download_one (fun _ => "x Access denied y ( 403 ) z") (fun _ => [])
              emptyState "SRR1").1 (fun _ => "") (fun _ => "") ["SRR1"]).1)
    ∧ ("ERR2" ∈ (download_one (fun _ => "y failed to resolve accession w ( 404 ) z")
        (fun _ => []) emptyState "ERR2").1.prefetch_access_failed_sra
      ∧ (download_one (fun _ => "y failed to resolve accession w ( 404 ) z") (fun _ => [])
          emptyState "ERR2").2 = [ToolCmd.vdbDump "ERR2"]
      ∧ CleanupCmd.rmOutputDir "ERR2"
          ∈ (cleanup_files (download_one (fun _ => "y failed to resolve accession w ( 404 ) z")
              (fun _ => []) emptyState "ERR2").1 (fun _ => "") (fun _ => "") ["ERR2"]).1
      ∧ CleanupCmd.rmSraFile "ERR2"
          ∉ (cleanup_files (download_one (fun _ => "y failed to resolve accession w ( 404 ) z")
              (fun _ => []) emptyState "ERR2").1 (fun _ => "") (fun _ => "") ["ERR2"]).1
      ∧ CleanupCmd.rmSraDir "ERR2"
          ∉ (cleanup_files (download_one (fun _ => "y failed to resolve accession w ( 404 ) z")
              (fun _ => []) emptyState "ERR2").1 (fun _ => "") (fun _ => "") ["ERR2"]).1) :=
  ⟨(C6_precheck_short_circuit (fun _ => "x Access denied y ( 403 ) z") (fun _ => [])
      emptyState "SRR1" (fun _ => "") (fun _ => "") ["SRR1"]).1 (by decide) (by decide),
   (C6_precheck_short_circuit (fun _ => "y failed to resolve accession w ( 404 ) z")
      (fun _ => []) emptyState "ERR2" (fun _ => "") (fun _ => "") ["ERR2"]).2
      (by decide) (by decide) (by decide)⟩

/-- C8: when the pre-check reports no error but, after the prefetch step,
the per-accession directory is absent from the working directory listing,
the accession is appended to the oversize rejection list and the
conversion command is not spawned (only vdb-dump and prefetch ran). -/
theorem C8_oversize_skip (vdbOut : String → String) (listdir : String → List String)
    (st : SeqState) (sra : String)
    (hpre : (check_proccess_output st sra "vdb-dump" (vdbOut sra)).1 = -1)
    (habs : sra ∉ listdir sra) :
    sra ∈ (download_one vdbOut listdir st sra).1.prefetch_oversize_sra
    ∧ (download_one vdbOut listdir st sra).2
        = [ToolCmd.vdbDump sra, ToolCmd.prefetchCmd sra] := by
  simp [download_one, hpre, habs]

/-- C8 witness: a clean pre-check output and an empty directory listing. -/
theorem C8_oversize_skip_witness :
    "SRR1" ∈ (download_one (fun _ => "ok") (fun _ => []) emptyState "SRR1").1.prefetch_oversize_sra
    ∧ (download_one (fun _ => "ok") (fun _ => []) emptyState "SRR1").2
        = [ToolCmd.vdbDump "SRR1", ToolCmd.prefetchCmd "SRR1"] :=
  C8_oversize_skip (fun _ => "ok") (fun _ => []) emptyState "SRR1" (by decide) (by decide)
